import Mathlib

/-!
Shallow embedding of `src/source.py` (the dr.spark alarm watcher):
fetch → parse → dedup → notify pipeline. Strings are Lean `String`s,
machine integers are `Nat`/`Int`, time stamps are `Nat` epoch seconds,
sleep durations are rationals (`Rat`, seconds). Network responses are
supplied as oracles (one response per attempt), and side effects
(database writes, HTTP posts, sleeps) are made explicit as returned
state / event traces.
-/

/-- One parsed listing, as built by `parse_list` (src/source.py lines 183-195).
`date` is absent until `is_new` stamps it (line 101). -/
structure Item where
  id : String
  url : String
  title : String
  raw_price : Option Nat
  price : Option String
  status : List String
  author : String
  age : String
  thumb : Option String
  views : String
  comments : String
  date : Option Nat
deriving DecidableEq, Repr

/-- One row of the `seen` table (src/source.py lines 85-92):
`post_id TEXT PRIMARY KEY, first_seen_ts INTEGER, product_name TEXT, price INTEGER`. -/
structure SeenEntry where
  post_id : String
  first_seen_ts : Nat
  product_name : String
  price : Option Nat
deriving DecidableEq, Repr

/-- The durable `seen` table, in insertion order. -/
abbrev SeenDB : Type := List SeenEntry

/-- Does the table hold a row with this `post_id`?  Embeds the
`SELECT 1 FROM seen WHERE post_id=?` point lookup (src/source.py line 98). -/
def dbKnows (db : SeenDB) (pid : String) : Bool :=
  db.any (fun e => e.post_id == pid)

/-- Embeds `is_new` (src/source.py lines 96-106): look the item's id up; if absent,
stamp `item['date']` with the current time, insert one row and return `True`;
if present, write nothing and return `False`.  `now` stands for
`int(time.time())` at the moment of the call.  Returns
(result, table after the call, item after the call). -/
def is_new (now : Nat) (db : SeenDB) (item : Item) : Bool × SeenDB × Item :=
  if dbKnows db item.id then
    (false, db, item)
  else
    let item' : Item := { item with date := some now }
    (true, db ++ [⟨item.id, now, item.title, item.raw_price⟩], item')

/-- Number of rows of the table whose `post_id` is `pid`. -/
def dbCount (db : SeenDB) (pid : String) : Nat :=
  db.countP (fun e => e.post_id == pid)

theorem dbKnows_append (db : SeenDB) (e : SeenEntry) (pid : String) :
    dbKnows (db ++ [e]) pid = (dbKnows db pid || (e.post_id == pid)) := by
  simp [dbKnows, List.any_append]

theorem dbCount_append (db : SeenDB) (e : SeenEntry) (pid : String) :
    dbCount (db ++ [e]) pid
      = dbCount db pid + (if e.post_id == pid then 1 else 0) := by
  simp [dbCount, List.countP_append, List.countP_cons]

theorem dbCount_eq_zero_of_not_knows (db : SeenDB) (pid : String)
    (h : dbKnows db pid = false) : dbCount db pid = 0 := by
  induction db with
  | nil => rfl
  | cons e rest ih =>
      simp only [dbKnows, List.any_cons, Bool.or_eq_false_iff] at h
      simp only [dbCount, List.countP_cons, h.1]
      exact ih h.2

/-- C1: starting from a table with no row for `p`, checking an item with id `p`
twice returns `true` then `false`, leaves exactly one row with `post_id = p`,
and the second call writes nothing (the table is unchanged by it). -/
theorem is_new_twice (now now2 : Nat) (db : SeenDB) (it it2 : Item)
    (hid : it.id = p) (hid2 : it2.id = p)
    (habsent : dbKnows db p = false) :
    (is_new now db it).1 = true ∧
    (is_new now2 (is_new now db it).2.1 it2).1 = false ∧
    (is_new now2 (is_new now db it).2.1 it2).2.1 = (is_new now db it).2.1 ∧
    dbCount (is_new now2 (is_new now db it).2.1 it2).2.1 p = 1 := by
  have h1 : dbKnows db it.id = false := by rw [hid]; exact habsent
  have hfirst : is_new now db it
      = (true, db ++ [⟨it.id, now, it.title, it.raw_price⟩],
          { it with date := some now }) := by
    simp [is_new, h1]
  have hknow2 : dbKnows (db ++ [⟨it.id, now, it.title, it.raw_price⟩]) it2.id = true := by
    rw [dbKnows_append, hid2]
    simp [habsent, hid]
  refine ⟨by rw [hfirst], ?_, ?_, ?_⟩
  · rw [hfirst]; simp [is_new, hknow2]
  · rw [hfirst]; simp [is_new, hknow2]
  · rw [hfirst]
    simp only [is_new, hknow2, if_pos]
    rw [dbCount_append, dbCount_eq_zero_of_not_knows db p habsent]
    simp [hid]

/-- Witness for C1 at a concrete id and empty table. -/
theorem is_new_twice_witness :
    let it : Item := ⟨"12345", "u", "t", some 5, some "5원", [], "a", "", none, "", "", none⟩
    (is_new 10 [] it).1 = true ∧
    (is_new 20 (is_new 10 [] it).2.1 it).1 = false ∧
    (is_new 20 (is_new 10 [] it).2.1 it).2.1 = (is_new 10 [] it).2.1 ∧
    dbCount (is_new 20 (is_new 10 [] it).2.1 it).2.1 "12345" = 1 := by
  exact is_new_twice 10 20 []
    ⟨"12345", "u", "t", some 5, some "5원", [], "a", "", none, "", "", none⟩
    ⟨"12345", "u", "t", some 5, some "5원", [], "a", "", none, "", "", none⟩
    rfl rfl (by decide)

/-! ## Pipeline runner (`run_once`, src/source.py lines 200-213)

`run_once` fetches, parses, and then walks the parsed items in document
order.  We model the per-item loop on the already-parsed list (fetching and
parsing are the upstream stages), with the Notifier abstracted by an oracle
`raises : Item → Bool` saying whether `discord_send` raises for that item
(the only ways `discord_send` ends are returning normally or raising).  The
loop body (lines 204-211): an item whose status list contains "구매중" is
skipped before any store access; otherwise `is_new` is called, and only when
it returns `True` is `discord_send` invoked.  The single `try/except`
(lines 201-213) wraps the whole loop, so an exception raised by
`discord_send` abandons the rest of the list for this cycle.  Observable
actions are recorded as events. -/

/-- One observable action of a cycle: an item skipped by the "구매중" filter,
a `is_new` store check on an item, or a `discord_send` call on an item
(the item as passed to the Notifier, i.e. after `is_new` stamped `date`). -/
inductive Event where
  | filtered (it : Item)
  | storeCheck (it : Item)
  | notifyCall (it : Item)
deriving DecidableEq, Repr

/-- Outcome of one cycle: final table, trace of observable actions, and
whether the loop ran to completion (`false` when a notification raised and
the cycle's `except` swallowed the exception). -/
structure CycleResult where
  db : SeenDB
  events : List Event
  completed : Bool
deriving DecidableEq, Repr

/-- The per-item loop of `run_once` (src/source.py lines 203-211). -/
def processItems (raises : Item → Bool) (now : Nat) :
    List Item → SeenDB → List Event → CycleResult
  | [], db, evs => ⟨db, evs, true⟩
  | it :: rest, db, evs =>
    if it.status.contains "구매중" then
      processItems raises now rest db (evs ++ [Event.filtered it])
    else if (is_new now db it).1 then
      if raises (is_new now db it).2.2 then
        ⟨(is_new now db it).2.1,
         evs ++ [Event.storeCheck it, Event.notifyCall (is_new now db it).2.2],
         false⟩
      else
        processItems raises now rest (is_new now db it).2.1
          (evs ++ [Event.storeCheck it, Event.notifyCall (is_new now db it).2.2])
    else
      processItems raises now rest (is_new now db it).2.1
        (evs ++ [Event.storeCheck it])

/-- One cycle of `run_once` on a successfully fetched and parsed item list. -/
def run_once (raises : Item → Bool) (now : Nat) (items : List Item)
    (db : SeenDB) : CycleResult :=
  processItems raises now items db []

theorem is_new_status (now : Nat) (db : SeenDB) (it : Item) :
    ((is_new now db it).2.2).status = it.status := by
  simp only [is_new]
  split <;> rfl

theorem is_new_id (now : Nat) (db : SeenDB) (it : Item) :
    ((is_new now db it).2.2).id = it.id := by
  simp only [is_new]
  split <;> rfl

theorem is_new_fst_eq (now : Nat) (db : SeenDB) (it : Item) :
    (is_new now db it).1 = !(dbKnows db it.id) := by
  simp only [is_new]
  split <;> simp_all

theorem is_new_db_of_known (now : Nat) (db : SeenDB) (it : Item)
    (h : dbKnows db it.id = true) : (is_new now db it).2.1 = db := by
  simp only [is_new, h]
  rfl

theorem is_new_of_fresh (now : Nat) (db : SeenDB) (it : Item)
    (h : dbKnows db it.id = false) :
    is_new now db it
      = (true, db ++ [⟨it.id, now, it.title, it.raw_price⟩],
          { it with date := some now }) := by
  simp [is_new, h]

/-- The property every `storeCheck` / `notifyCall` event satisfies: the item
it was performed on is not marked "구매중". -/
def EvOK (ev : Event) : Prop :=
  ∀ j : Item, ev = Event.storeCheck j ∨ ev = Event.notifyCall j →
    j.status.contains "구매중" = false

theorem evOK_filtered (it : Item) : EvOK (Event.filtered it) := by
  intro j hj
  rcases hj with h | h <;> exact Event.noConfusion h

theorem evOK_storeCheck {it : Item}
    (h : it.status.contains "구매중" = false) : EvOK (Event.storeCheck it) := by
  intro j hj
  rcases hj with h1 | h1
  · injection h1 with h2
    exact h2 ▸ h
  · exact Event.noConfusion h1

theorem evOK_notifyCall {it : Item}
    (h : it.status.contains "구매중" = false) : EvOK (Event.notifyCall it) := by
  intro j hj
  rcases hj with h1 | h1
  · exact Event.noConfusion h1
  · injection h1 with h2
    exact h2 ▸ h

theorem mem_append_pair {α : Type} {x a b : α} {l : List α}
    (h : x ∈ l ++ [a, b]) : x ∈ l ∨ x = a ∨ x = b := by
  rcases List.mem_append.mp h with h1 | h1
  · exact Or.inl h1
  · simp only [List.mem_cons, List.not_mem_nil, or_false] at h1
    exact Or.inr h1

/-- Every store check and every notification in a cycle is on an item whose
status tags do not contain "구매중". -/
theorem processItems_evOK (raises : Item → Bool) (now : Nat) :
    ∀ (items : List Item) (db : SeenDB) (evs : List Event),
      (∀ ev ∈ evs, EvOK ev) →
      ∀ ev ∈ (processItems raises now items db evs).events, EvOK ev := by
  intro items
  induction items with
  | nil =>
      intro db evs h
      simpa [processItems] using h
  | cons it rest ih =>
      intro db evs h
      by_cases hm : it.status.contains "구매중" = true
      · simp only [processItems, hm, if_true]
        refine ih db (evs ++ [Event.filtered it]) ?_
        intro ev hev
        rcases List.mem_append.mp hev with h1 | h1
        · exact h ev h1
        · simp at h1
          exact h1 ▸ evOK_filtered it
      · have hm' : it.status.contains "구매중" = false := by
          exact Bool.not_eq_true _ ▸ hm
        have hpair : ∀ ev ∈ evs ++ [Event.storeCheck it,
            Event.notifyCall (is_new now db it).2.2], EvOK ev := by
          intro ev hev
          rcases mem_append_pair hev with h1 | h1 | h1
          · exact h ev h1
          · exact h1 ▸ evOK_storeCheck hm'
          · refine h1 ▸ evOK_notifyCall ?_
            rw [is_new_status]
            exact hm'
        by_cases hf : (is_new now db it).1 = true
        · by_cases hr : raises (is_new now db it).2.2 = true
          · simp only [processItems, hm', Bool.false_eq_true, if_false, hf,
              if_true, hr]
            exact hpair
          · simp only [processItems, hm', Bool.false_eq_true, if_false, hf,
              if_true, hr]
            exact ih _ _ hpair
        · simp only [processItems, hm', Bool.false_eq_true, if_false, hf]
          refine ih _ _ ?_
          intro ev hev
          rcases List.mem_append.mp hev with h1 | h1
          · exact h ev h1
          · simp at h1
            exact h1 ▸ evOK_storeCheck hm'

/-- C2: an item whose status tags contain the in-progress marker "구매중" is
never the subject of a store check and never passed to the Notifier, in any
cycle: neither a `storeCheck` on it nor a `notifyCall` on any date-stamped
variant of it occurs in the cycle's trace. -/
theorem inprogress_item_never_checked_or_notified (raises : Item → Bool)
    (now : Nat) (items : List Item) (db : SeenDB) (it : Item)
    (h : it.status.contains "구매중" = true) :
    Event.storeCheck it ∉ (run_once raises now items db).events ∧
    ∀ d : Option Nat,
      Event.notifyCall { it with date := d }
        ∉ (run_once raises now items db).events := by
  have hinv := processItems_evOK raises now items db []
    (by intro ev hev; exact absurd hev (List.not_mem_nil ev))
  constructor
  · intro hmem
    have := hinv _ hmem it (Or.inl rfl)
    rw [this] at h
    exact Bool.noConfusion h
  · intro d hmem
    have := hinv _ hmem { it with date := d } (Or.inr rfl)
    simp only at this
    rw [this] at h
    exact Bool.noConfusion h

/-- Witness for C2: a concrete cycle with one "구매중" item and one plain
item; the marked item is neither checked nor notified. -/
theorem inprogress_item_never_checked_or_notified_witness :
    let marked : Item :=
      ⟨"11111", "u1", "t1", none, none, ["구매중"], "a", "", none, "", "", none⟩
    let plain : Item :=
      ⟨"22222", "u2", "t2", some 3, some "3원", [], "b", "", none, "", "", none⟩
    marked.status.contains "구매중" = true ∧
    Event.storeCheck marked
      ∉ (run_once (fun _ => false) 7 [marked, plain] []).events ∧
    Event.notifyCall { marked with date := some 7 }
      ∉ (run_once (fun _ => false) 7 [marked, plain] []).events := by
  refine ⟨by decide, ?_, ?_⟩
  · exact (inprogress_item_never_checked_or_notified (fun _ => false) 7 _ []
      _ (by decide)).1
  · exact (inprogress_item_never_checked_or_notified (fun _ => false) 7 _ []
      _ (by decide)).2 (some 7)

theorem processItems_append (raises : Item → Bool) (now : Nat) :
    ∀ (xs ys : List Item) (db : SeenDB) (evs : List Event),
      processItems raises now (xs ++ ys) db evs =
        (if (processItems raises now xs db evs).completed then
          processItems raises now ys (processItems raises now xs db evs).db
            (processItems raises now xs db evs).events
        else processItems raises now xs db evs) := by
  intro xs
  induction xs with
  | nil =>
      intro ys db evs
      simp [processItems]
  | cons it rest ih =>
      intro ys db evs
      by_cases hm : it.status.contains "구매중" = true
      · simp only [List.cons_append, processItems, hm, if_true]
        exact ih ys db (evs ++ [Event.filtered it])
      · have hm' : it.status.contains "구매중" = false := by
          exact Bool.not_eq_true _ ▸ hm
        by_cases hf : (is_new now db it).1 = true
        · by_cases hr : raises (is_new now db it).2.2 = true
          · simp only [List.cons_append, processItems, hm', Bool.false_eq_true,
              if_false, hf, if_true, hr]
          · simp only [List.cons_append, processItems, hm', Bool.false_eq_true,
              if_false, hf, if_true, hr]
            exact ih ys _ _
        · simp only [List.cons_append, processItems, hm', Bool.false_eq_true,
            if_false, hf]
          exact ih ys _ _

theorem is_new_db_mono (now : Nat) (db : SeenDB) (it : Item) {e : SeenEntry}
    (h : e ∈ db) : e ∈ (is_new now db it).2.1 := by
  simp only [is_new]
  split
  · exact h
  · exact List.mem_append_left _ h

theorem dbKnows_is_new (now : Nat) (db : SeenDB) (it : Item) (p : String)
    (h : dbKnows db p = true) : dbKnows (is_new now db it).2.1 p = true := by
  simp only [is_new]
  split
  · exact h
  · simp [dbKnows_append, h]

/-- The `seen` table only ever grows during a cycle: no row is updated or
deleted. -/
theorem processItems_db_mono (raises : Item → Bool) (now : Nat) :
    ∀ (items : List Item) (db : SeenDB) (evs : List Event) (e : SeenEntry),
      e ∈ db → e ∈ (processItems raises now items db evs).db := by
  intro items
  induction items with
  | nil =>
      intro db evs e h
      simpa [processItems] using h
  | cons it rest ih =>
      intro db evs e h
      by_cases hm : it.status.contains "구매중" = true
      · simp only [processItems, hm, if_true]
        exact ih _ _ e h
      · have hm' : it.status.contains "구매중" = false := by
          exact Bool.not_eq_true _ ▸ hm
        by_cases hf : (is_new now db it).1 = true
        · by_cases hr : raises (is_new now db it).2.2 = true
          · simp only [processItems, hm', Bool.false_eq_true, if_false, hf,
              if_true, hr]
            exact is_new_db_mono now db it h
          · simp only [processItems, hm', Bool.false_eq_true, if_false, hf,
              if_true, hr]
            exact ih _ _ e (is_new_db_mono now db it h)
        · simp only [processItems, hm', Bool.false_eq_true, if_false, hf]
          exact ih _ _ e (is_new_db_mono now db it h)

/-- Once an id is in the table, no cycle ever notifies an item with that id:
`is_new` returns `False` for it, and `discord_send` is gated on `is_new`. -/
theorem processItems_known_no_notify (raises : Item → Bool) (now : Nat)
    (p : String) :
    ∀ (items : List Item) (db : SeenDB) (evs : List Event),
      dbKnows db p = true →
      (∀ j : Item, Event.notifyCall j ∈ evs → j.id ≠ p) →
      ∀ j : Item,
        Event.notifyCall j ∈ (processItems raises now items db evs).events →
        j.id ≠ p := by
  intro items
  induction items with
  | nil =>
      intro db evs hdb hevs
      simpa [processItems] using hevs
  | cons it rest ih =>
      intro db evs hdb hevs
      by_cases hm : it.status.contains "구매중" = true
      · simp only [processItems, hm, if_true]
        refine ih _ _ hdb ?_
        intro j hj
        rcases List.mem_append.mp hj with h1 | h1
        · exact hevs j h1
        · simp only [List.mem_singleton] at h1
          exact Event.noConfusion h1
      · have hm' : it.status.contains "구매중" = false := by
          exact Bool.not_eq_true _ ▸ hm
        by_cases hf : (is_new now db it).1 = true
        · have hitp : it.id ≠ p := by
            intro hc
            rw [is_new_fst_eq, hc, hdb] at hf
            exact Bool.noConfusion hf
          have hext : ∀ j : Item, Event.notifyCall j ∈ evs ++
              [Event.storeCheck it, Event.notifyCall (is_new now db it).2.2] →
              j.id ≠ p := by
            intro j hj
            rcases mem_append_pair hj with h1 | h1 | h1
            · exact hevs j h1
            · exact Event.noConfusion h1
            · injection h1 with h2
              rw [h2, is_new_id]
              exact hitp
          by_cases hr : raises (is_new now db it).2.2 = true
          · simp only [processItems, hm', Bool.false_eq_true, if_false, hf,
              if_true, hr]
            exact hext
          · simp only [processItems, hm', Bool.false_eq_true, if_false, hf,
              if_true, hr]
            exact ih _ _ (dbKnows_is_new now db it p hdb) hext
        · simp only [processItems, hm', Bool.false_eq_true, if_false, hf]
          refine ih _ _ (dbKnows_is_new now db it p hdb) ?_
          intro j hj
          rcases List.mem_append.mp hj with h1 | h1
          · exact hevs j h1
          · simp only [List.mem_singleton] at h1
            exact Event.noConfusion h1

/-- When the prefix `xs` of a cycle completes, `bad` is unfiltered and fresh,
and the Notifier raises on it, the whole cycle ends right there: the result
is independent of everything after `bad`. -/
theorem processItems_abort_eq (raises : Item → Bool) (now : Nat)
    (xs rest : List Item) (bad : Item) (db db₁ : SeenDB) (evs₁ : List Event)
    (hpre : processItems raises now xs db [] = ⟨db₁, evs₁, true⟩)
    (hm : bad.status.contains "구매중" = false)
    (hfresh : dbKnows db₁ bad.id = false)
    (hraise : raises { bad with date := some now } = true) :
    run_once raises now (xs ++ bad :: rest) db =
      ⟨db₁ ++ [⟨bad.id, now, bad.title, bad.raw_price⟩],
       evs₁ ++ [Event.storeCheck bad,
                Event.notifyCall { bad with date := some now }],
       false⟩ := by
  unfold run_once
  rw [processItems_append, hpre]
  have hnew := is_new_of_fresh now db₁ bad hfresh
  simp only [processItems, hm, Bool.false_eq_true, if_false, hnew, if_true,
    hraise]

/-- C9: when the Notifier raises for item `bad` (after the completed prefix
`xs` of the document-order list), the cycle's single `try/except` ends the
cycle there: the cycle result is a value that does not depend on `rest` at
all, so no item after `bad` is store-checked, notified, or recorded in that
cycle. -/
theorem notify_failure_aborts_rest_of_cycle (raises : Item → Bool)
    (now : Nat) (xs rest : List Item) (bad : Item) (db db₁ : SeenDB)
    (evs₁ : List Event)
    (hpre : processItems raises now xs db [] = ⟨db₁, evs₁, true⟩)
    (hm : bad.status.contains "구매중" = false)
    (hfresh : dbKnows db₁ bad.id = false)
    (hraise : raises { bad with date := some now } = true) :
    run_once raises now (xs ++ bad :: rest) db =
      ⟨db₁ ++ [⟨bad.id, now, bad.title, bad.raw_price⟩],
       evs₁ ++ [Event.storeCheck bad,
                Event.notifyCall { bad with date := some now }],
       false⟩ := by
  exact processItems_abort_eq raises now xs rest bad db db₁ evs₁ hpre hm
    hfresh hraise

/-- Witness for C9: a concrete cycle in which the Notifier raises on the
first item; the second item contributes nothing to the result. -/
theorem notify_failure_aborts_rest_of_cycle_witness :
    let bad : Item :=
      ⟨"33333", "u3", "t3", some 1, some "1원", [], "c", "", none, "", "", none⟩
    let later : Item :=
      ⟨"44444", "u4", "t4", none, none, [], "d", "", none, "", "", none⟩
    run_once (fun _ => true) 5 ([] ++ bad :: [later]) [] =
      ⟨[] ++ [⟨"33333", 5, "t3", some 1⟩],
       [] ++ [Event.storeCheck bad,
              Event.notifyCall { bad with date := some 5 }],
       false⟩ := by
  exact notify_failure_aborts_rest_of_cycle (fun _ => true) 5 [] _ _ [] [] []
    (by decide) (by decide) (by decide) rfl

/-- C5: if the Notifier raises on `bad` right after `is_new` recorded it,
the inserted row survives the cycle (no rollback), every later `is_new`
check on that id returns `False`, and no later cycle ever notifies an item
with that id again. -/
theorem failed_notify_keeps_seen_entry (raises : Item → Bool) (now : Nat)
    (xs rest : List Item) (bad : Item) (db db₁ : SeenDB) (evs₁ : List Event)
    (hpre : processItems raises now xs db [] = ⟨db₁, evs₁, true⟩)
    (hm : bad.status.contains "구매중" = false)
    (hfresh : dbKnows db₁ bad.id = false)
    (hraise : raises { bad with date := some now } = true) :
    (⟨bad.id, now, bad.title, bad.raw_price⟩ : SeenEntry)
        ∈ (run_once raises now (xs ++ bad :: rest) db).db ∧
    (∀ (now2 : Nat) (it2 : Item), it2.id = bad.id →
      (is_new now2 (run_once raises now (xs ++ bad :: rest) db).db it2).1
        = false) ∧
    (∀ (raises2 : Item → Bool) (now2 : Nat) (items2 : List Item) (j : Item),
      Event.notifyCall j ∈
        (run_once raises2 now2 items2
          (run_once raises now (xs ++ bad :: rest) db).db).events →
      j.id ≠ bad.id) := by
  have heq := processItems_abort_eq raises now xs rest bad db db₁ evs₁ hpre
    hm hfresh hraise
  have hknows : dbKnows (run_once raises now (xs ++ bad :: rest) db).db
      bad.id = true := by
    rw [heq]
    simp [dbKnows_append]
  refine ⟨?_, ?_, ?_⟩
  · rw [heq]
    exact List.mem_append_right _ (List.mem_singleton.mpr rfl)
  · intro now2 it2 hid2
    rw [is_new_fst_eq, hid2, hknows]
    rfl
  · intro raises2 now2 items2 j hj
    exact processItems_known_no_notify raises2 now2 bad.id items2 _ [] hknows
      (by intro j2 hj2; exact absurd hj2 (List.not_mem_nil _)) j hj

/-- Witness for C5 at a concrete failing cycle. -/
theorem failed_notify_keeps_seen_entry_witness :
    let bad : Item :=
      ⟨"55555", "u5", "t5", some 2, some "2원", [], "e", "", none, "", "", none⟩
    let res := run_once (fun _ => true) 6 ([] ++ bad :: []) []
    (⟨"55555", 6, "t5", some 2⟩ : SeenEntry) ∈ res.db ∧
    (is_new 9 res.db bad).1 = false ∧
    Event.notifyCall { bad with date := some 9 }
      ∉ (run_once (fun _ => true) 9 [bad] res.db).events := by
  have h := failed_notify_keeps_seen_entry (fun _ => true) 6 [] [] 
    ⟨"55555", "u5", "t5", some 2, some "2원", [], "e", "", none, "", "", none⟩
    [] [] [] (by decide) (by decide) (by decide) rfl
  exact ⟨h.1, h.2.1 9 _ rfl, fun hmem =>
    (h.2.2 (fun _ => true) 9 [⟨"55555", "u5", "t5", some 2, some "2원", [],
      "e", "", none, "", "", none⟩] _ hmem) rfl⟩

/-! ## Fetcher status handling (`fetch_html`, src/source.py lines 109-123)

The retry machinery inside the session is modelled separately below; here we
embed what `fetch_html` does with the final response the session hands back:
log a ≤500-character snippet and `raise_for_status()` when the status code
is at least 400 (`raise_for_status` always raises there), and return the
decoded body otherwise. -/

/-- A final HTTP response as seen by `fetch_html`: status code and decoded
body text. -/
structure HttpResp where
  status : Nat
  text : String
deriving DecidableEq, Repr

/-- The diagnostic snippet `(r.text or "")[:500].replace("\n", " ")`
(src/source.py line 116): first 500 characters, newlines replaced by
spaces. -/
def bodySnippet (s : String) : String :=
  String.mk ((s.data.take 500).map (fun c => if c = '\n' then ' ' else c))

/-- The error raised for a failing status, together with the logged
diagnostics (status code and body snippet, src/source.py lines 116-118). -/
structure HttpStatusError where
  status : Nat
  snippet : String
deriving DecidableEq, Repr

/-- Embeds `fetch_html`'s handling of the final response (src/source.py
lines 115-119): status ≥ 400 logs the snippet and calls
`r.raise_for_status()`, which raises exactly for 400 ≤ status < 600; for
any status outside that range — below 400, or 600 and above (where
`raise_for_status` is a no-op and control falls through) — the body is
returned. -/
def fetch_html (r : HttpResp) : Except HttpStatusError String :=
  if 400 ≤ r.status ∧ r.status < 600 then
    Except.error ⟨r.status, bodySnippet r.text⟩
  else
    Except.ok r.text

theorem bodySnippet_length_le (s : String) : (bodySnippet s).length ≤ 500 := by
  show ((s.data.take 500).map (fun c => if c = '\n' then ' ' else c)).length ≤ 500
  rw [List.length_map, List.length_take]
  exact min_le_left _ _

/-- C4 counterexample: a final response with status 301 is not in the 2xx
range, yet `fetch_html` does not fail — it returns the body; likewise a
final status of 999 (≥ 600, where `raise_for_status` is a no-op even
inside the status ≥ 400 branch) is returned, not raised. -/
theorem fetch_html_non2xx_counterexample :
    fetch_html ⟨301, "redirect body"⟩ = Except.ok "redirect body" ∧
    ¬ (200 ≤ 301 ∧ 301 < 300) ∧
    fetch_html ⟨999, "odd status"⟩ = Except.ok "odd status" ∧
    ¬ (200 ≤ 999 ∧ 999 < 300) := by
  refine ⟨rfl, by omega, rfl, by omega⟩

/-- C4 amended: for a final response with 400 ≤ status < 600 (the exact
range where `r.raise_for_status()` raises), `fetch_html` fails with a
status error carrying the status code and a body snippet of at most 500
characters; for a final response with status < 400 it returns the decoded
body text (as it also does for a status ≥ 600). -/
theorem fetch_html_status_spec (r : HttpResp) :
    (400 ≤ r.status → r.status < 600 →
      fetch_html r = Except.error ⟨r.status, bodySnippet r.text⟩ ∧
      (bodySnippet r.text).length ≤ 500) ∧
    (r.status < 400 → fetch_html r = Except.ok r.text) ∧
    (600 ≤ r.status → fetch_html r = Except.ok r.text) := by
  refine ⟨?_, ?_, ?_⟩
  · intro h4 h6
    exact ⟨by simp [fetch_html, h4, h6], bodySnippet_length_le r.text⟩
  · intro h
    have : ¬ (400 ≤ r.status ∧ r.status < 600) := by omega
    simp [fetch_html, this]
  · intro h
    have : ¬ (400 ≤ r.status ∧ r.status < 600) := by omega
    simp [fetch_html, this]

/-- Witness for C4's amended theorem at a 404 response (with a newline in
the body), a 200 response, and a 999 response. -/
theorem fetch_html_status_spec_witness :
    (400 ≤ 404 ∧ 404 < 600 ∧
      fetch_html ⟨404, "not\nfound"⟩
        = Except.error ⟨404, bodySnippet "not\nfound"⟩ ∧
      (bodySnippet "not\nfound").length ≤ 500) ∧
    (200 < 400 ∧ fetch_html ⟨200, "<html>ok"⟩ = Except.ok "<html>ok") ∧
    (600 ≤ 999 ∧ fetch_html ⟨999, "odd"⟩ = Except.ok "odd") := by
  refine ⟨⟨by omega, by omega, ?_⟩, ⟨by omega, ?_⟩, by omega, ?_⟩
  · exact (fetch_html_status_spec ⟨404, "not\nfound"⟩).1 (by decide) (by decide)
  · exact (fetch_html_status_spec ⟨200, "<html>ok"⟩).2.1 (by decide)
  · exact (fetch_html_status_spec ⟨999, "odd"⟩).2.2 (by decide)

/-! ## Price extraction (`parse_list`, src/source.py lines 152-160) -/

/-- The decimal value of a run of digit characters, as Python's
`int(digits)` computes it for a non-empty digit string. -/
def decimalValue (l : List Char) : Nat :=
  l.foldl (fun n c => 10 * n + (c.toNat - 48)) 0

/-- The price block of `parse_list` (src/source.py lines 152-160), given the
stripped text of the styled price span when that span is present
(`price_el.get_text(strip=True)`), or `none` when the span is absent.
`re.sub(r"[^\d]", "", price)` keeps exactly the digit characters, in order
(the `\d` class is modelled as the decimal digits 0-9); `int(digits)` on the
non-empty result is its decimal value; an empty digit string gives
`raw_price = None` while `price` keeps the display string.  Returns
`(raw_price, price)`. -/
def parsePrice (priceText : Option String) : Option Nat × Option String :=
  match priceText with
  | none => (none, none)
  | some s =>
      let digits := s.data.filter Char.isDigit
      (if digits.isEmpty then none else some (decimalValue digits), some s)

/-- C7: for every price string `s`, the numeric price is the decimal value
of the digit characters of `s` in order whenever `s` contains a digit (a
`Nat`, hence non-negative and integral), and is absent when `s` has no
digits — in which case the display string is still recorded; an absent
price span yields both fields absent. -/
theorem parsePrice_spec (s : String) :
    (s.data.filter Char.isDigit ≠ [] →
      parsePrice (some s)
        = (some (decimalValue (s.data.filter Char.isDigit)), some s)) ∧
    (s.data.filter Char.isDigit = [] →
      parsePrice (some s) = (none, some s)) ∧
    parsePrice none = (none, none) := by
  refine ⟨?_, ?_, rfl⟩
  · intro h
    simp only [parsePrice]
    rw [if_neg (by simpa [List.isEmpty_iff] using h)]
  · intro h
    simp only [parsePrice]
    rw [if_pos (by simpa [List.isEmpty_iff] using h)]

/-- Witness for C7 on the source's own example "11,000원" (→ 11000) and on a
digit-free string. -/
theorem parsePrice_spec_witness :
    "11,000원".data.filter Char.isDigit ≠ [] ∧
    parsePrice (some "11,000원") = (some 11000, some "11,000원") ∧
    "가격문의".data.filter Char.isDigit = [] ∧
    parsePrice (some "가격문의") = (none, some "가격문의") := by
  refine ⟨by decide, ?_, by decide, ?_⟩
  · have h := (parsePrice_spec "11,000원").1 (by decide)
    rw [h]
    decide
  · exact (parsePrice_spec "가격문의").2.1 (by decide)

/-! ## Thumbnail URL normalisation (`_norm_img`, src/source.py lines 125-131) -/

/-- The site's base origin (src/source.py line 14). -/
def BASE : String := "https://www.drspark.net"

/-- Python's `str.startswith`, character-wise. -/
def py_startswith (s pre : String) : Bool :=
  pre.data.isPrefixOf s.data

/-- Python's `str.strip()` with no argument: remove leading and trailing
whitespace. -/
def py_strip (s : String) : String :=
  String.mk (((s.data.dropWhile Char.isWhitespace).reverse.dropWhile
    Char.isWhitespace).reverse)

/-- Modelled from Python's `urllib.parse.urljoin` (standard-library
collaborator), restricted to the joins this program performs: the base is
the bare origin `https://www.drspark.net` (scheme and host, empty path, no
query or fragment).  An absolute `http(s)` reference is returned unchanged;
a protocol-relative reference takes the base's scheme (`https`); an
absolute-path reference is appended to the origin; any other non-empty
relative reference merges with the base's empty path, giving
`origin ++ "/" ++ ref`; the empty reference yields the base itself. -/
def urljoin (base s : String) : String :=
  if s = "" then base
  else if py_startswith s "http://" || py_startswith s "https://" then s
  else if py_startswith s "//" then "https:" ++ s
  else if py_startswith s "/" then base ++ s
  else base ++ "/" ++ s

/-- Embeds `_norm_img` (src/source.py lines 125-131): a falsy (`None` or empty)
source gives no thumbnail; otherwise the source is stripped, a
protocol-relative `//…` source gets `https:` prefixed, and anything else is
joined against `BASE`. -/
def norm_img : Option String → Option String
  | none => none
  | some src =>
      if src = "" then none
      else
        let s := py_strip src
        if py_startswith s "//" then some ("https:" ++ s)
        else some (urljoin BASE s)

/-- C8: the normalizer maps an absent source to an absent thumbnail, a
protocol-relative source `//…` to the same reference under `https:`, and
any other (relative) source to its `urljoin` against the configured base
origin.  (Stated for already-stripped sources; `_norm_img` strips
whitespace first.) -/
theorem norm_img_spec :
    norm_img none = none ∧
    (∀ s : String, py_strip s = s → py_startswith s "//" = true →
      norm_img (some s) = some ("https:" ++ s)) ∧
    (∀ s : String, py_strip s = s → s ≠ "" → py_startswith s "//" = false →
      norm_img (some s) = some (urljoin BASE s)) := by
  refine ⟨rfl, ?_, ?_⟩
  · intro s htrim hpfx
    have hne : s ≠ "" := by
      intro he
      rw [he] at hpfx
      exact absurd hpfx (by decide)
    simp only [norm_img, if_neg hne, htrim, hpfx, if_true]
  · intro s htrim hne hpfx
    simp only [norm_img, if_neg hne, htrim, hpfx, Bool.false_eq_true,
      if_false]

/-- Witness for C8: the protocol-relative path `//x/y.jpg` becomes
`https://x/y.jpg`, the relative path `files/a.jpg` joins against the base
origin, and an absent source stays absent. -/
theorem norm_img_spec_witness :
    norm_img none = none ∧
    norm_img (some "//x/y.jpg") = some "https://x/y.jpg" ∧
    norm_img (some "files/a.jpg")
      = some "https://www.drspark.net/files/a.jpg" := by
  refine ⟨norm_img_spec.1, ?_, ?_⟩
  · exact (norm_img_spec.2.1 "//x/y.jpg" (by decide) (by decide)).trans
      (by decide)
  · exact (norm_img_spec.2.2 "files/a.jpg" (by decide) (by decide)
      (by decide)).trans (by decide)

/-! ## Notifier (`discord_send`, src/source.py lines 216-281)

The payload is built once before the attempt loop (lines 225-245), so every
attempt POSTs the same payload.  The loop `for attempt in range(1, 4)` runs
at most three iterations; each POSTs and inspects the response:
- 204 or 2xx: log and return (success);
- 429: parse `retry_after` from the JSON body (default 1.0 when the body is
  missing/unparsable), `time.sleep(retry_after + 0.25)`, `continue`;
- any other status: log a snippet, then `r.raise_for_status()`, which
  raises exactly for 400 ≤ status < 600; the raised `HTTPError` is a
  `RequestException`, so the `except` clause catches it like a network
  failure: sleep `1.5 * attempt` and retry, or re-raise when
  `attempt = max_attempts`.  For status < 400 (and ≥ 600)
  `raise_for_status` is a no-op and the iteration simply falls through to
  the next attempt with no sleep;
- network-level failure of the POST itself: same `except` path.
If all three iterations finish without returning or raising, the `for`
loop is exhausted and the function returns `None` — there is no raise
after the loop.  The fixed three iterations are unrolled below. -/

/-- What one webhook POST attempt yields: a response with a status code
(plus, when the body is a JSON object with a numeric `retry_after`, that
value in seconds; `none` when it is missing or the body is unparsable,
making `data.get("retry_after", 1.0)` fall back to 1.0), or a
network-level `RequestException` (timeout, connection error). -/
inductive PostResult where
  | resp (status : Nat) (retryAfter : Option Rat)
  | netError
deriving DecidableEq, Repr

/-- How a `discord_send` call ends. -/
inductive SendEnd where
  | disabled
  | sentOK (status : Nat) (attempt : Nat)
  | raised (attempt : Nat)
  | returnedNone
deriving DecidableEq, Repr

/-- Result of `discord_send` with its side effects: every POSTed payload in
order, and every `time.sleep` duration (seconds) in order. -/
structure SendTrace where
  result : SendEnd
  posts : List String
  sleeps : List Rat
deriving DecidableEq, Repr

/-- One iteration of the attempt loop of `discord_send` (src/source.py
lines 248-281): either a terminal outcome (`Sum.inl`) or the accumulated
posts and sleeps to carry into the next iteration (`Sum.inr`). -/
def discordStep (resps : Nat → PostResult) (payload : String)
    (attempt : Nat) (posts : List String) (sleeps : List Rat) :
    SendTrace ⊕ (List String × List Rat) :=
  let posts' := posts ++ [payload]
  match resps attempt with
  | PostResult.resp status retryAfter =>
      if status = 204 ∨ (200 ≤ status ∧ status < 300) then
        Sum.inl ⟨SendEnd.sentOK status attempt, posts', sleeps⟩
      else if status = 429 then
        Sum.inr (posts', sleeps ++ [retryAfter.getD 1 + 1/4])
      else if 400 ≤ status ∧ status < 600 then
        if attempt < 3 then
          Sum.inr (posts', sleeps ++ [3/2 * (attempt : Rat)])
        else Sum.inl ⟨SendEnd.raised attempt, posts', sleeps⟩
      else Sum.inr (posts', sleeps)
  | PostResult.netError =>
      if attempt < 3 then
        Sum.inr (posts', sleeps ++ [3/2 * (attempt : Rat)])
      else Sum.inl ⟨SendEnd.raised attempt, posts', sleeps⟩

/-- Embeds `discord_send` (src/source.py lines 216-281): no configured webhook is
a warn-and-return no-op (lines 221-223); otherwise the three loop
iterations run in order, and falling off the loop returns `None`. -/
def discord_send (webhook : Option String) (resps : Nat → PostResult)
    (payload : String) : SendTrace :=
  match webhook with
  | none => ⟨SendEnd.disabled, [], []⟩
  | some _ =>
      match discordStep resps payload 1 [] [] with
      | Sum.inl t => t
      | Sum.inr (p1, s1) =>
          match discordStep resps payload 2 p1 s1 with
          | Sum.inl t => t
          | Sum.inr (p2, s2) =>
              match discordStep resps payload 3 p2 s2 with
              | Sum.inl t => t
              | Sum.inr (p3, s3) => ⟨SendEnd.returnedNone, p3, s3⟩

/-- C3 counterexample: with a webhook configured and the server answering
429 (`retry_after: 2`) on all three attempts, `discord_send` sleeps 2.25s
each time and then falls off the loop, returning `None` to the caller — it
does not raise. -/
theorem discord_send_all429_counterexample :
    discord_send (some "wh") (fun _ => PostResult.resp 429 (some 2)) "p"
      = ⟨SendEnd.returnedNone, ["p", "p", "p"], [9/4, 9/4, 9/4]⟩ ∧
    (discord_send (some "wh") (fun _ => PostResult.resp 429 (some 2))
        "p").result ≠ SendEnd.raised 3 := by
  have h : discord_send (some "wh") (fun _ => PostResult.resp 429 (some 2))
      "p" = ⟨SendEnd.returnedNone, ["p", "p", "p"], [9/4, 9/4, 9/4]⟩ := by
    simp only [discord_send, discordStep]
    norm_num
  refine ⟨h, ?_⟩
  rw [h]
  exact fun hc => SendEnd.noConfusion hc

/-- C3 amended: every attempt that receives 429 sleeps the server-provided
`retry_after` (default 1.0 when missing/unparsable) plus 0.25 seconds and
then retries the same payload; but when all 3 attempts receive 429 the loop
is exhausted and the call returns normally (`None`) to the caller — it does
not raise. -/
theorem discord_send_all429_spec (resps : Nat → PostResult)
    (ra : Nat → Option Rat) (wh payload : String)
    (h : ∀ a : Nat, 1 ≤ a → a ≤ 3 → resps a = PostResult.resp 429 (ra a)) :
    discord_send (some wh) resps payload
      = ⟨SendEnd.returnedNone, [payload, payload, payload],
         [(ra 1).getD 1 + 1/4, (ra 2).getD 1 + 1/4,
          (ra 3).getD 1 + 1/4]⟩ := by
  have h1 := h 1 (by omega) (by omega)
  have h2 := h 2 (by omega) (by omega)
  have h3 := h 3 (by omega) (by omega)
  simp only [discord_send, discordStep, h1, h2, h3]
  norm_num

/-- Witness for C3's amended theorem: `retry_after` of 2, 1/2, and absent
(default 1.0) on the three attempts. -/
theorem discord_send_all429_spec_witness :
    discord_send (some "wh")
        (fun n => if n = 1 then PostResult.resp 429 (some 2)
          else if n = 2 then PostResult.resp 429 (some (1/2))
          else PostResult.resp 429 none) "pay"
      = ⟨SendEnd.returnedNone, ["pay", "pay", "pay"],
         [2 + 1/4, 1/2 + 1/4, 1 + 1/4]⟩ := by
  exact (discord_send_all429_spec
    (fun n => if n = 1 then PostResult.resp 429 (some 2)
      else if n = 2 then PostResult.resp 429 (some (1/2))
      else PostResult.resp 429 none)
    (fun n => if n = 1 then some (2 : Rat)
      else if n = 2 then some (1/2) else none)
    "wh" "pay"
    (by intro a ha1 ha3; interval_cases a <;> rfl)).trans (by norm_num)

/-- C10: when all 3 attempts receive a 3xx response, no attempt succeeds,
`raise_for_status` is a no-op below 400, no sleep happens, and after the
third attempt the loop is exhausted and the call returns normally —
indistinguishable from success to the caller. -/
theorem discord_send_all3xx_returns_normally (resps : Nat → PostResult)
    (st : Nat → Nat) (wh payload : String)
    (hr : ∀ a : Nat, 1 ≤ a → a ≤ 3 → resps a = PostResult.resp (st a) none)
    (hs : ∀ a : Nat, 1 ≤ a → a ≤ 3 → 300 ≤ st a ∧ st a < 400) :
    discord_send (some wh) resps payload
      = ⟨SendEnd.returnedNone, [payload, payload, payload], []⟩ := by
  have h1 := hr 1 (by omega) (by omega)
  have h2 := hr 2 (by omega) (by omega)
  have h3 := hr 3 (by omega) (by omega)
  have s1 := hs 1 (by omega) (by omega)
  have s2 := hs 2 (by omega) (by omega)
  have s3 := hs 3 (by omega) (by omega)
  have e1 : discordStep resps payload 1 [] []
      = Sum.inr ([payload], []) := by
    simp only [discordStep, h1]
    rw [if_neg (by omega), if_neg (by omega), if_neg (by omega)]
    simp
  have e2 : discordStep resps payload 2 [payload] []
      = Sum.inr ([payload, payload], []) := by
    simp only [discordStep, h2]
    rw [if_neg (by omega), if_neg (by omega), if_neg (by omega)]
    simp
  have e3 : discordStep resps payload 3 [payload, payload] []
      = Sum.inr ([payload, payload, payload], []) := by
    simp only [discordStep, h3]
    rw [if_neg (by omega), if_neg (by omega), if_neg (by omega)]
    simp
  simp only [discord_send, e1, e2, e3]

/-- Witness for C10 with 301, 302, 304 on the three attempts. -/
theorem discord_send_all3xx_returns_normally_witness :
    discord_send (some "wh")
        (fun n => if n = 1 then PostResult.resp 301 none
          else if n = 2 then PostResult.resp 302 none
          else PostResult.resp 304 none) "pay"
      = ⟨SendEnd.returnedNone, ["pay", "pay", "pay"], []⟩ := by
  exact discord_send_all3xx_returns_normally
    (fun n => if n = 1 then PostResult.resp 301 none
      else if n = 2 then PostResult.resp 302 none
      else PostResult.resp 304 none)
    (fun n => if n = 1 then 301 else if n = 2 then 302 else 304) "wh" "pay"
    (by intro a ha1 ha3; interval_cases a <;> rfl)
    (by intro a ha1 ha3; interval_cases a <;> exact ⟨by norm_num, by norm_num⟩)

/-! ## Fetcher retry (`get_session`, src/source.py lines 66-79)

`get_session` configures a `urllib3` `Retry` on the shared session:
`total=3, backoff_factor=0.7, status_forcelist=[429, 500, 502, 503, 504],
allowed_methods=["GET", "HEAD"], raise_on_status=False`; `fetch_html` then
issues GET requests through it (line 113).  The retry loop itself lives in
the external `urllib3` library; it is modelled here from urllib3's
documented `Retry` semantics (verified against urllib3 1.26 sources):
`total` counts RETRIES, not requests, so `total=3` allows one initial
request plus up to three retries (four requests); after the k-th
consecutive failure, `get_backoff_time` yields 0 when k ≤ 1 and otherwise
`min(120, backoff_factor * 2^(k-1))`, the delay before the next retry (a
delay of 0 means the retry is immediate — the sleep call is skipped);
a response whose status is in `status_forcelist` (the request method GET
being in `allowed_methods`) is retried, any other response is returned at
once; when retries are exhausted by a forcelisted status,
`raise_on_status=False` makes the session return that final response
(which `fetch_html` then fails on via `raise_for_status`, status ≥ 400);
when they are exhausted by a connection-level error, `MaxRetryError`
propagates (surfacing as a transport error).  Responses are modelled
without a `Retry-After` header. -/

/-- The `status_forcelist` of the Retry configuration (src/source.py line 73). -/
def status_forcelist : List Nat := [429, 500, 502, 503, 504]

/-- What the k-th HTTP request yields at the transport level: a response,
or a connection-level failure. -/
inductive NetAttempt where
  | conn (status : Nat) (text : String)
  | connError
deriving DecidableEq, Repr

/-- How the retrying session call ends: a final response handed back to
`fetch_html`, or `MaxRetryError` after exhausted connection retries. -/
inductive SessionOutcome where
  | response (status : Nat) (text : String)
  | maxRetryError
deriving DecidableEq, Repr

/-- Result of one `ses.get` call: outcome, number of HTTP requests issued,
and the backoff delay (seconds) computed before each retry, in order. -/
structure SessionTrace where
  outcome : SessionOutcome
  requests : Nat
  sleeps : List Rat
deriving DecidableEq, Repr

/-- urllib3 `Retry.get_backoff_time` with `backoff_factor=0.7` after `k`
consecutive failed requests: 0 when k ≤ 1, else
`min(120, 0.7 * 2^(k-1))`. -/
def retryBackoff (k : Nat) : Rat :=
  if k ≤ 1 then 0 else min 120 ((7/10) * 2 ^ (k - 1))

/-- The urllib3 retry loop as configured (`total=3`): `remaining` is the
number of retries still allowed, `attempt` the 1-based number of the
request about to be inspected.  A forcelisted status with no retries left
is returned as the final response (`raise_on_status=False`); a connection
error with no retries left is `MaxRetryError`. -/
def sessionLoop (resps : Nat → NetAttempt) :
    Nat → Nat → List Rat → SessionTrace
  | 0, attempt, sleeps =>
      match resps attempt with
      | NetAttempt.conn st txt =>
          ⟨SessionOutcome.response st txt, attempt, sleeps⟩
      | NetAttempt.connError =>
          ⟨SessionOutcome.maxRetryError, attempt, sleeps⟩
  | r + 1, attempt, sleeps =>
      match resps attempt with
      | NetAttempt.conn st txt =>
          if st ∈ status_forcelist then
            sessionLoop resps r (attempt + 1)
              (sleeps ++ [retryBackoff attempt])
          else ⟨SessionOutcome.response st txt, attempt, sleeps⟩
      | NetAttempt.connError =>
          sessionLoop resps r (attempt + 1)
            (sleeps ++ [retryBackoff attempt])

/-- One `ses.get` with the configured `Retry(total=3, ...)`. -/
def session_get (resps : Nat → NetAttempt) : SessionTrace :=
  sessionLoop resps 3 1 []

/-- What a whole `fetch_html` call produces. -/
inductive FetchOutcome where
  | body (text : String)
  | statusError (status : Nat) (snippet : String)
  | transportError
deriving DecidableEq, Repr

/-- Embeds `fetch_html` end to end (src/source.py lines 109-123): the session's
retrying GET, then the status handling of the final response.  Returns
(outcome, number of HTTP requests, backoff delays). -/
def fetch_via_session (resps : Nat → NetAttempt) :
    FetchOutcome × Nat × List Rat :=
  match session_get resps with
  | ⟨SessionOutcome.response st txt, n, sl⟩ =>
      (match fetch_html ⟨st, txt⟩ with
       | Except.ok t => (FetchOutcome.body t, n, sl)
       | Except.error e => (FetchOutcome.statusError e.status e.snippet, n, sl))
  | ⟨SessionOutcome.maxRetryError, n, sl⟩ =>
      (FetchOutcome.transportError, n, sl)

theorem sessionLoop_zero (resps : Nat → NetAttempt) (attempt : Nat)
    (sleeps : List Rat) :
    sessionLoop resps 0 attempt sleeps
      = match resps attempt with
        | NetAttempt.conn st txt =>
            ⟨SessionOutcome.response st txt, attempt, sleeps⟩
        | NetAttempt.connError =>
            ⟨SessionOutcome.maxRetryError, attempt, sleeps⟩ := by
  rfl

theorem sessionLoop_succ (resps : Nat → NetAttempt) (r attempt : Nat)
    (sleeps : List Rat) :
    sessionLoop resps (r + 1) attempt sleeps
      = match resps attempt with
        | NetAttempt.conn st txt =>
            if st ∈ status_forcelist then
              sessionLoop resps r (attempt + 1)
                (sleeps ++ [retryBackoff attempt])
            else ⟨SessionOutcome.response st txt, attempt, sleeps⟩
        | NetAttempt.connError =>
            sessionLoop resps r (attempt + 1)
              (sleeps ++ [retryBackoff attempt]) := by
  rfl

theorem sessionLoop_zero_conn (resps : Nat → NetAttempt) (attempt : Nat)
    (sleeps : List Rat) (st : Nat) (txt : String)
    (h : resps attempt = NetAttempt.conn st txt) :
    sessionLoop resps 0 attempt sleeps
      = ⟨SessionOutcome.response st txt, attempt, sleeps⟩ := by
  rw [sessionLoop_zero, h]

theorem sessionLoop_zero_net (resps : Nat → NetAttempt) (attempt : Nat)
    (sleeps : List Rat) (h : resps attempt = NetAttempt.connError) :
    sessionLoop resps 0 attempt sleeps
      = ⟨SessionOutcome.maxRetryError, attempt, sleeps⟩ := by
  rw [sessionLoop_zero, h]

theorem sessionLoop_succ_conn (resps : Nat → NetAttempt) (r attempt : Nat)
    (sleeps : List Rat) (st : Nat) (txt : String)
    (h : resps attempt = NetAttempt.conn st txt) :
    sessionLoop resps (r + 1) attempt sleeps
      = if st ∈ status_forcelist then
          sessionLoop resps r (attempt + 1) (sleeps ++ [retryBackoff attempt])
        else ⟨SessionOutcome.response st txt, attempt, sleeps⟩ := by
  rw [sessionLoop_succ, h]

theorem sessionLoop_succ_net (resps : Nat → NetAttempt) (r attempt : Nat)
    (sleeps : List Rat) (h : resps attempt = NetAttempt.connError) :
    sessionLoop resps (r + 1) attempt sleeps
      = sessionLoop resps r (attempt + 1)
          (sleeps ++ [retryBackoff attempt]) := by
  rw [sessionLoop_succ, h]

theorem sessionLoop_requests_le (resps : Nat → NetAttempt) :
    ∀ (remaining attempt : Nat) (sleeps : List Rat),
      (sessionLoop resps remaining attempt sleeps).requests
        ≤ attempt + remaining := by
  intro remaining
  induction remaining with
  | zero =>
      intro attempt sleeps
      cases h : resps attempt with
      | conn st txt =>
          rw [sessionLoop_zero_conn resps attempt sleeps st txt h]
          simp
      | connError =>
          rw [sessionLoop_zero_net resps attempt sleeps h]
          simp
  | succ r ih =>
      intro attempt sleeps
      cases h : resps attempt with
      | conn st txt =>
          rw [sessionLoop_succ_conn resps r attempt sleeps st txt h]
          by_cases hf : st ∈ status_forcelist
          · rw [if_pos hf]
            have := ih (attempt + 1) (sleeps ++ [retryBackoff attempt])
            omega
          · rw [if_neg hf]
            simp
      | connError =>
          rw [sessionLoop_succ_net resps r attempt sleeps h]
          have := ih (attempt + 1) (sleeps ++ [retryBackoff attempt])
          omega

/-- The outcome with all four requests answered 503: the loop issues its
initial request plus the three allowed retries and hands the final 503
back. -/
theorem session_get_all503 (resps : Nat → NetAttempt) (txt : Nat → String)
    (h : ∀ a : Nat, 1 ≤ a → a ≤ 4 → resps a = NetAttempt.conn 503 (txt a)) :
    session_get resps
      = ⟨SessionOutcome.response 503 (txt 4), 4,
         [retryBackoff 1, retryBackoff 2, retryBackoff 3]⟩ := by
  have h1 := h 1 (by omega) (by omega)
  have h2 := h 2 (by omega) (by omega)
  have h3 := h 3 (by omega) (by omega)
  have h4 := h 4 (by omega) (by omega)
  have hf : (503 : Nat) ∈ status_forcelist := by decide
  have e1 : sessionLoop resps 3 1 []
      = sessionLoop resps 2 2 [retryBackoff 1] := by
    have e := sessionLoop_succ_conn resps 2 1 [] 503 (txt 1) h1
    rw [if_pos hf] at e
    exact e
  have e2 : sessionLoop resps 2 2 [retryBackoff 1]
      = sessionLoop resps 1 3 [retryBackoff 1, retryBackoff 2] := by
    have e := sessionLoop_succ_conn resps 1 2 [retryBackoff 1] 503 (txt 2) h2
    rw [if_pos hf] at e
    exact e
  have e3 : sessionLoop resps 1 3 [retryBackoff 1, retryBackoff 2]
      = sessionLoop resps 0 4
          [retryBackoff 1, retryBackoff 2, retryBackoff 3] := by
    have e := sessionLoop_succ_conn resps 0 3 [retryBackoff 1, retryBackoff 2]
      503 (txt 3) h3
    rw [if_pos hf] at e
    exact e
  have e4 := sessionLoop_zero_conn resps 4
    [retryBackoff 1, retryBackoff 2, retryBackoff 3] 503 (txt 4) h4
  show sessionLoop resps 3 1 [] = _
  rw [e1, e2, e3, e4]

/-- C6 counterexample: with the server answering 503 to every request, the
configured session (`Retry(total=3)`) issues 4 requests, not 3 — `total`
counts retries on top of the initial request — and the first computed
backoff delay is 0, not 0.7 s (urllib3 backs off only from the second
retry on); the call then fails with a status error carrying the final
503. -/
theorem fetch_retry_counterexample :
    fetch_via_session (fun _ => NetAttempt.conn 503 "unavailable")
      = (FetchOutcome.statusError 503 "unavailable", 4, [0, 7/5, 14/5]) ∧
    (4 : Nat) ≠ 3 ∧ (0 : Rat) ≠ 7/10 := by
  refine ⟨?_, by omega, by norm_num⟩
  have hs := session_get_all503 (fun _ => NetAttempt.conn 503 "unavailable")
    (fun _ => "unavailable") (fun a h1 h4 => rfl)
  simp only [fetch_via_session, hs]
  have hb : fetch_html ⟨503, "unavailable"⟩
      = Except.error ⟨503, bodySnippet "unavailable"⟩ := by
    simp [fetch_html]
  rw [hb]
  have hsn : bodySnippet "unavailable" = "unavailable" := by decide
  rw [hsn]
  norm_num [retryBackoff]

/-- C6 amended: the session makes at most 4 requests in total per fetch
call (1 initial + up to `total=3` retries); a first response whose status
is outside {429, 500, 502, 503, 504} ends the call after exactly 1 request
(retries happen only on forcelisted statuses or connection failure); and
when the server returns 503 on every request the call fails with a status
error after exactly 4 requests, with computed backoff delays 0, 1.4 s,
2.8 s — non-decreasing, doubling from the second retry on. -/
theorem fetch_retry_spec :
    (∀ resps : Nat → NetAttempt, (fetch_via_session resps).2.1 ≤ 4) ∧
    (∀ (resps : Nat → NetAttempt) (st : Nat) (txt : String),
      ¬ st ∈ status_forcelist → resps 1 = NetAttempt.conn st txt →
      (fetch_via_session resps).2.1 = 1) ∧
    (∀ (resps : Nat → NetAttempt) (txt : Nat → String),
      (∀ a : Nat, 1 ≤ a → a ≤ 4 → resps a = NetAttempt.conn 503 (txt a)) →
      fetch_via_session resps
        = (FetchOutcome.statusError 503 (bodySnippet (txt 4)), 4,
           [0, 7/5, 14/5]) ∧
      (0 : Rat) ≤ 7/5 ∧ (7/5 : Rat) ≤ 14/5) := by
  refine ⟨?_, ?_, ?_⟩
  · intro resps
    have hle := sessionLoop_requests_le resps 3 1 []
    rcases hsg : session_get resps with ⟨out, n, sl⟩
    have hn : n ≤ 4 := by
      rw [show sessionLoop resps 3 1 [] = session_get resps from rfl, hsg]
        at hle
      simpa using hle
    cases out with
    | response st txt =>
        simp only [fetch_via_session, hsg]
        cases hfh : fetch_html ⟨st, txt⟩ <;> simp [hfh, hn]
    | maxRetryError =>
        simp only [fetch_via_session, hsg]
        exact hn
  · intro resps st txt hf h1
    have hsg : session_get resps
        = ⟨SessionOutcome.response st txt, 1, []⟩ := by
      have e := sessionLoop_succ_conn resps 2 1 [] st txt h1
      rw [if_neg hf] at e
      exact e
    simp only [fetch_via_session, hsg]
    cases hfh : fetch_html ⟨st, txt⟩ <;> simp [hfh]
  · intro resps txt h
    have hs := session_get_all503 resps txt h
    have hb : fetch_html ⟨503, txt 4⟩
        = Except.error ⟨503, bodySnippet (txt 4)⟩ := by
      simp [fetch_html]
    refine ⟨?_, by norm_num, by norm_num⟩
    simp only [fetch_via_session, hs, hb]
    norm_num [retryBackoff]

/-- Witness for C6's amended theorem: a 404 first answer stops after one
request; an all-503 server exhausts all four requests. -/
theorem fetch_retry_spec_witness :
    (fetch_via_session (fun _ => NetAttempt.conn 503 "x")).2.1 ≤ 4 ∧
    ¬ (404 : Nat) ∈ status_forcelist ∧
    (fetch_via_session (fun _ => NetAttempt.conn 404 "gone")).2.1 = 1 ∧
    fetch_via_session (fun _ => NetAttempt.conn 503 "x")
      = (FetchOutcome.statusError 503 (bodySnippet "x"), 4,
         [0, 7/5, 14/5]) := by
  refine ⟨fetch_retry_spec.1 _, by decide, ?_, ?_⟩
  · exact fetch_retry_spec.2.1 (fun _ => NetAttempt.conn 404 "gone") 404
      "gone" (by decide) rfl
  · exact (fetch_retry_spec.2.2 (fun _ => NetAttempt.conn 503 "x")
      (fun _ => "x") (fun a h1 h4 => rfl)).1
